import Mathlib

/-!
# The `Demo` component of `void-landing` (`src/components/Demo.jsx`)

A shallow embedding of the interaction logic of the React component `Demo`:
the six `useState` cells, the three refs, the handlers
`sendVideoToBackend`, `startRecording`, `stopRecording`, `handleCameraToggle`,
`handleTextSubmit`, the two mode-switch `onClick` handlers and the two
`MediaRecorder` callbacks.

Every handler is embedded as the list of effects it performs, in program
order, computed from the values its closure reads (`Component`); an effect is
one statement of the source (a state setter, a ref mutation, a browser call).
`applyEffect` gives each effect its meaning on the component, `run` performs a
handler's effects in order, and `step` dispatches one event of the browser's
event loop to the handler the JSX binds to it. `lang` is the language in the
closure of `sendVideoToBackend`.
-/

namespace Demo

/-! ## Values -/

/-- JavaScript values, as far as `response.json()` can produce them and
`setOutputText` can store them. `num` carries the value of a finite double. -/
inductive JsVal where
  | undefined
  | null
  | bool (b : Bool)
  | num (q : ℚ)
  | str (s : String)
  | arr (items : List JsVal)
  | obj (props : List (String × JsVal))

/-- JavaScript `ToBoolean`: `undefined`, `null`, `false`, `0` and `""` are
falsy, every array and object is truthy. -/
def JsVal.truthy : JsVal → Bool
  | .undefined => false
  | .null => false
  | .bool b => b
  | .num q => decide (q ≠ 0)
  | .str s => decide (s ≠ "")
  | .arr _ => true
  | .obj _ => true

/-- The expression `a || b`. -/
def JsVal.or (a b : JsVal) : JsVal :=
  if a.truthy then a else b

/-- The member access `data.result`: a `TypeError` on `undefined` and `null`,
the property when `data` is an object that has it, `undefined` otherwise
(primitives and arrays have no property of that name). -/
def JsVal.result : JsVal → Except String JsVal
  | .undefined => .error "TypeError"
  | .null => .error "TypeError"
  | .obj props => .ok ((props.lookup "result").getD .undefined)
  | _ => .ok .undefined

/-- The two interaction modes, `'text-to-sign'` and `'sign-to-text'`. -/
inductive Mode where
  | textToSign
  | signToText
  deriving DecidableEq, Repr

/-- A `Blob`: its bytes and its `type`. -/
structure Blob where
  bytes : List Nat
  type : String
  deriving DecidableEq, Repr

/-- The property `blob.size`. -/
def Blob.size (b : Blob) : Nat :=
  b.bytes.length

/-- The constructor `new Blob(parts, { type })`: the parts' bytes in order. -/
def newBlob (parts : List Blob) (type : String) : Blob :=
  { bytes := (parts.map Blob.bytes).flatten, type := type }

/-- How `await response.json()` settles. -/
inductive JsonOutcome where
  | rejects (error : String)
  | resolves (data : JsVal)

/-- A `Response`, as far as `sendVideoToBackend` reads it. -/
structure Response where
  ok : Bool
  status : Nat
  json : JsonOutcome

/-- How `await fetch(...)` settles. -/
inductive FetchOutcome where
  | rejects (error : String)
  | resolves (response : Response)

/-- The `state` of a `MediaRecorder`; `stopPending` is a recorder whose
`stop()` has been called and whose `stop` event has not been dispatched yet. -/
inductive RecorderState where
  | inactive
  | recording
  | stopPending
  deriving DecidableEq, Repr

/-! ## The component -/

/-- The component between two events: the `useState` cells, the refs, and what
the browser holds on the component's behalf. -/
structure Component where
  /-- The cell `mode`. -/
  mode : Mode
  /-- The cell `inputText`. -/
  inputText : String
  /-- The cell `outputText`. -/
  outputText : JsVal
  /-- The cell `isProcessing`. -/
  isProcessing : Bool
  /-- The cell `isCameraActive`. -/
  isCameraActive : Bool
  /-- The cell `isRecording`. -/
  isRecording : Bool
  /-- Whether `webcamRef.current && webcamRef.current.video.srcObject` is truthy. -/
  webcamStream : Bool
  /-- The ref `mediaRecorderRef.current`: `none` for `null`, else the index of
  the recorder in `recorders`. -/
  mediaRecorder : Option Nat
  /-- The ref `chunksRef.current`. -/
  chunks : List Blob
  /-- Every `MediaRecorder` constructed so far, in construction order. -/
  recorders : List RecorderState
  /-- The bodies of the `fetch` calls that have not settled yet. -/
  requests : List Blob
  /-- The pending `setTimeout` callbacks, each with the `inputText` its closure
  captured. -/
  timers : List String

/-- One statement with an effect outside its handler's local variables. -/
inductive Effect where
  | setMode (m : Mode)
  | setInputText (s : String)
  | setOutputText (v : JsVal)
  | setIsProcessing (b : Bool)
  | setIsCameraActive (b : Bool)
  | setIsRecording (b : Bool)
  /-- The assignment `chunksRef.current = []`. -/
  | resetChunks
  /-- The call `chunksRef.current.push(e.data)`. -/
  | pushChunk (b : Blob)
  /-- The assignment `mediaRecorderRef.current = new MediaRecorder(stream, { mimeType })`
  together with the assignments of `ondataavailable` and `onstop`. -/
  | newMediaRecorder (mimeType : String)
  /-- The call `mediaRecorderRef.current.start()`. -/
  | recorderStart
  /-- The call `mediaRecorderRef.current.stop()`. -/
  | recorderStop
  /-- The call `fetch(url, { method, body })` with a one-part `FormData` body. -/
  | fetch (url method field : String) (file : Blob) (filename : String)
  /-- The call `setTimeout(callback, ms)`; `captured` is the `inputText` in the
  callback's closure. -/
  | setTimeout (captured : String) (ms : Nat)
  | consoleError (label detail : String)
  | consoleLog (label detail : String)

/-- The meaning of one effect. `stop()` acts on a recording recorder only. -/
def applyEffect (c : Component) : Effect → Component
  | .setMode m => { c with mode := m }
  | .setInputText s => { c with inputText := s }
  | .setOutputText v => { c with outputText := v }
  | .setIsProcessing b => { c with isProcessing := b }
  | .setIsCameraActive b => { c with isCameraActive := b }
  | .setIsRecording b => { c with isRecording := b }
  | .resetChunks => { c with chunks := [] }
  | .pushChunk b => { c with chunks := c.chunks ++ [b] }
  | .newMediaRecorder _ =>
      { c with recorders := c.recorders ++ [.inactive],
               mediaRecorder := some c.recorders.length }
  | .recorderStart =>
      match c.mediaRecorder with
      | some i => { c with recorders := c.recorders.set i .recording }
      | none => c
  | .recorderStop =>
      match c.mediaRecorder with
      | some i =>
          if c.recorders[i]? = some .recording then
            { c with recorders := c.recorders.set i .stopPending }
          else c
      | none => c
  | .fetch _ _ _ file _ => { c with requests := c.requests ++ [file] }
  | .setTimeout captured _ => { c with timers := c.timers ++ [captured] }
  | .consoleError _ _ => c
  | .consoleLog _ _ => c

/-- Performs a handler's effects in program order. -/
def run (c : Component) (effects : List Effect) : Component :=
  effects.foldl applyEffect c

/-! ## `sendVideoToBackend` (lines 27-57) -/

/-- Lines 28-40: the statements up to the suspension at `await fetch(...)`. -/
def sendVideoToBackend_issue (videoBlob : Blob) : List Effect :=
  [.setIsProcessing true,
   .setOutputText (.str ""),
   .fetch "/api/predict" "POST" "file" videoBlob "sign_video.webm"]

/-- Lines 37-49, the body of the `try` after `fetch` has settled: the thrown
error, or the effects of the body when it completes. The body's only effect is
its last statement. -/
def sendVideoToBackend_try (lang : String) : FetchOutcome → Except String (List Effect)
  | .rejects error => .error error
  | .resolves response =>
      if !response.ok then
        .error ("Server Error: " ++ toString response.status)
      else
        match response.json with
        | .rejects error => .error error
        | .resolves data =>
            match data.result with
            | .error error => .error error
            | .ok result =>
                .ok [.setOutputText
                  (result.or (if lang = "ar" then .str "لم يتم التعرف" else .str "Unknown"))]

/-- Lines 35-56 after `fetch` has settled: the `try` body, the `catch` block
when the body threw, then the `finally` block. -/
def sendVideoToBackend_settle (lang : String) (outcome : FetchOutcome) : List Effect :=
  (match sendVideoToBackend_try lang outcome with
   | .ok effects => effects
   | .error error =>
       [.consoleError "API Error:" error,
        .setOutputText (if lang = "ar" then .str "خطأ في الاتصال بالسيرفر"
                        else .str "Connection Error")])
  ++ [.setIsProcessing false]

/-- One whole call of `sendVideoToBackend(videoBlob)` whose request settles
with `outcome`. -/
def sendVideoToBackend (lang : String) (videoBlob : Blob) (outcome : FetchOutcome) :
    List Effect :=
  sendVideoToBackend_issue videoBlob ++ sendVideoToBackend_settle lang outcome

/-! ## Recording (lines 64-99) -/

/-- Lines 64-91, `startRecording`: the recorder is constructed and started only
when the webcam element exists and has a stream. -/
def startRecording (c : Component) : List Effect :=
  [.setIsRecording true, .resetChunks] ++
    (if c.webcamStream then [.newMediaRecorder "video/webm", .recorderStart] else [])

/-- Lines 77-81, the `ondataavailable` callback; `data` is `e.data`, `none`
when it is falsy. -/
def ondataavailable (data : Option Blob) : List Effect :=
  match data with
  | some blob => if blob.size > 0 then [.pushChunk blob] else []
  | none => []

/-- Lines 84-87, the `onstop` callback: it reads `chunksRef.current` when it
runs and starts a call of `sendVideoToBackend`, which runs up to its `await`. -/
def onstop (c : Component) : List Effect :=
  sendVideoToBackend_issue (newBlob c.chunks "video/webm")

/-- Lines 94-99, `stopRecording`. -/
def stopRecording (c : Component) : List Effect :=
  [.setIsRecording false] ++ (if c.mediaRecorder.isSome then [.recorderStop] else [])

/-- Lines 102-117, `handleCameraToggle`. -/
def handleCameraToggle (c : Component) : List Effect :=
  if !c.isCameraActive then
    [.setIsCameraActive true, .setOutputText (.str "")]
  else if !c.isRecording then
    startRecording c
  else
    stopRecording c

/-! ## Text (lines 122-130) -/

/-- The code points `String.prototype.trim` strips: ECMAScript `WhiteSpace`
(TAB, VT, FF, SP, NBSP, ZWNBSP and the category Zs) and `LineTerminator`
(LF, CR, LS, PS). -/
def isJsWhiteSpace (ch : Char) : Bool :=
  ch.toNat ∈ [0x9, 0xA, 0xB, 0xC, 0xD, 0x20, 0xA0, 0x1680, 0x2028, 0x2029, 0x202F,
              0x205F, 0x3000, 0xFEFF]
  || (0x2000 ≤ ch.toNat && ch.toNat ≤ 0x200A)

/-- The method `String.prototype.trim`. -/
def jsTrim (s : String) : String :=
  ⟨((s.data.dropWhile isJsWhiteSpace).reverse.dropWhile isJsWhiteSpace).reverse⟩

/-- Lines 122-130, `handleTextSubmit` up to its return; the empty string is
the one falsy string. -/
def handleTextSubmit (c : Component) : List Effect :=
  if jsTrim c.inputText = "" then
    []
  else
    [.setIsProcessing true, .setTimeout c.inputText 1500]

/-- Lines 126-129, the callback given to `setTimeout`. -/
def textTimeoutCallback (captured : String) : List Effect :=
  [.consoleLog "Avatar Text Sent:" captured, .setIsProcessing false]

/-! ## Mode switcher (lines 149-160) -/

/-- Line 150, the `onClick` of the text-to-sign tab. -/
def onClickTextToSign : List Effect :=
  [.setMode .textToSign, .setIsCameraActive false, .setIsRecording false]

/-- Line 156, the `onClick` of the sign-to-text tab. -/
def onClickSignToText : List Effect :=
  [.setMode .signToText, .setInputText ""]

/-! ## Events -/

/-- What the browser's event loop can dispatch to the component. -/
inductive Event where
  /-- A click on the text-to-sign tab. -/
  | clickTextToSign
  /-- A click on the sign-to-text tab. -/
  | clickSignToText
  /-- The `onChange` of the textarea, with `e.target.value`. -/
  | changeInput (value : String)
  /-- A click on the translate button. -/
  | clickTextSubmit
  /-- A click on the camera control button. -/
  | clickCameraToggle
  /-- The mounted webcam element obtains its stream. -/
  | streamReady
  /-- Recorder `i` dispatches `dataavailable` with `e.data`. -/
  | dataavailable (i : Nat) (data : Option Blob)
  /-- Recorder `i` dispatches `stop`. -/
  | stop (i : Nat)
  /-- The pending request `i` settles. -/
  | fetchSettled (i : Nat) (outcome : FetchOutcome)
  /-- The oldest pending timeout expires. -/
  | timeout

/-- The render that follows an event: the webcam element is mounted only in
sign-to-text mode with the camera active (lines 182 and 216), and
`webcamRef.current` is `null` while it is not. The exit animation of
`AnimatePresence` (line 181), during which the outgoing panel stays mounted,
is taken as instantaneous. -/
def rerender (c : Component) : Component :=
  { c with webcamStream :=
      c.webcamStream && (decide (c.mode = .signToText) && c.isCameraActive) }

/-- Dispatches one event: `none` when the event cannot occur in `c` (its
control is not rendered or is disabled, the recorder is not in a state that
dispatches it, nothing is pending), else the component after the bound handler
and the render. Only the panel of the current mode takes clicks: a click on
the outgoing panel during its exit animation is not among the events. -/
def step (lang : String) (c : Component) : Event → Option Component
  | .clickTextToSign => some (rerender (run c onClickTextToSign))
  | .clickSignToText => some (rerender (run c onClickSignToText))
  | .changeInput value =>
      if c.mode = .textToSign then some (rerender (run c [.setInputText value])) else none
  | .clickTextSubmit =>
      if c.mode = .textToSign ∧ ¬ (c.isProcessing || decide (jsTrim c.inputText = "")) then
        some (rerender (run c (handleTextSubmit c)))
      else none
  | .clickCameraToggle =>
      if c.mode = .signToText ∧ ¬ c.isProcessing then
        some (rerender (run c (handleCameraToggle c)))
      else none
  | .streamReady =>
      if c.mode = .signToText ∧ c.isCameraActive then
        some { c with webcamStream := true }
      else none
  | .dataavailable i data =>
      if c.recorders[i]? = some .recording ∨ c.recorders[i]? = some .stopPending then
        some (rerender (run c (ondataavailable data)))
      else none
  | .stop i =>
      if c.recorders[i]? = some .stopPending then
        let c1 := { c with recorders := c.recorders.set i .inactive }
        some (rerender (run c1 (onstop c1)))
      else none
  | .fetchSettled i outcome =>
      if i < c.requests.length then
        let c1 := { c with requests := c.requests.eraseIdx i }
        some (rerender (run c1 (sendVideoToBackend_settle lang outcome)))
      else none
  | .timeout =>
      match c.timers with
      | captured :: rest =>
          some (rerender (run { c with timers := rest } (textTimeoutCallback captured)))
      | [] => none

/-- Dispatches a list of events in order. -/
def steps (lang : String) (c : Component) : List Event → Option Component
  | [] => some c
  | e :: es => (step lang c e).bind (fun c1 => steps lang c1 es)

/-- The component as mounted (lines 11-22). -/
def initial : Component :=
  { mode := .textToSign, inputText := "", outputText := .str "", isProcessing := false,
    isCameraActive := false, isRecording := false, webcamStream := false,
    mediaRecorder := none, chunks := [], recorders := [], requests := [], timers := [] }

/-- The states the component can be in: those the events lead to from `initial`. -/
def Reachable (lang : String) (c : Component) : Prop :=
  ∃ es : List Event, steps lang initial es = some c

/-- The number of submissions in flight: unsettled requests and pending
text timeouts. -/
def inFlight (c : Component) : Nat :=
  c.requests.length + c.timers.length

/-! ## Sample components and traces -/

/-- Whether an effect is the call `setIsProcessing(false)`. -/
def Effect.clearsProcessing : Effect → Bool
  | .setIsProcessing false => true
  | _ => false

/-- The component in the middle of a recording: the camera is on, the recorder
`0` records and has delivered one segment of three bytes. -/
def recordingSession : Component :=
  { initial with mode := .signToText, isCameraActive := true, isRecording := true,
                 webcamStream := true, mediaRecorder := some 0,
                 chunks := [{ bytes := [26, 69, 223], type := "video/webm" }],
                 recorders := [.recording] }

/-- The component after the camera was activated and recording was started
before the webcam had a stream: `isRecording` is set and no recorder exists. -/
def recordingWithoutStream : Component :=
  { initial with mode := .signToText, isCameraActive := true, isRecording := true }

/-- Activate the camera, record and stop; start a second recording before the
first recorder has delivered its segment (bytes `1 2`) and dispatched `stop`;
let the first request settle, stop the second recording, whose recorder
delivers its one segment (byte `3`) and dispatches `stop`. -/
def overlappingSessions : List Event :=
  [.clickSignToText, .clickCameraToggle, .streamReady,
   .clickCameraToggle, .clickCameraToggle,
   .clickCameraToggle,
   .dataavailable 0 (some { bytes := [1, 2], type := "video/webm" }),
   .stop 0,
   .fetchSettled 0 (.resolves { ok := true, status := 200,
                                json := .resolves (.obj [("result", .str "HELLO")]) }),
   .clickCameraToggle,
   .dataavailable 1 (some { bytes := [3], type := "video/webm" }),
   .stop 1]

/-- Activate the camera, record, stop, record again and stop again before the
first recorder has dispatched its `stop` event; then both events arrive. -/
def overlappingStops : List Event :=
  [.clickSignToText, .clickCameraToggle, .streamReady,
   .clickCameraToggle, .clickCameraToggle,
   .clickCameraToggle, .clickCameraToggle,
   .stop 0, .stop 1]

/-! # Theorems -/

/-! ## Facts about `run` -/

theorem run_nil (c : Component) : run c [] = c := rfl

theorem run_cons (c : Component) (e : Effect) (es : List Effect) :
    run c (e :: es) = run (applyEffect c e) es := rfl

theorem run_append (c : Component) (es fs : List Effect) :
    run c (es ++ fs) = run (run c es) fs := by
  simp [run, List.foldl_append]

/-! ## `sendVideoToBackend` -/

/-- When the `try` body completes, its effects are one `setOutputText`. -/
theorem sendVideoToBackend_try_ok (lang : String) (outcome : FetchOutcome) (es : List Effect)
    (h : sendVideoToBackend_try lang outcome = .ok es) : ∃ v, es = [.setOutputText v] := by
  unfold sendVideoToBackend_try at h
  split at h
  · cases h
  · split at h
    · cases h
    · split at h
      · cases h
      · split at h
        · cases h
        · cases h
          exact ⟨_, rfl⟩

/-- C1: whatever the component and however the request settles (a success
response, a non-success status, a rejected `fetch`, a rejected or unusable
JSON body), a whole call of `sendVideoToBackend` performs
`setIsProcessing(false)` exactly once, as its last effect, and leaves
`isProcessing` false. -/
theorem sendVideoToBackend_clears_processing_once (lang : String) (c : Component)
    (videoBlob : Blob) (outcome : FetchOutcome) :
    (sendVideoToBackend lang videoBlob outcome).countP Effect.clearsProcessing = 1 ∧
    (sendVideoToBackend lang videoBlob outcome).getLast? = some (.setIsProcessing false) ∧
    (run c (sendVideoToBackend lang videoBlob outcome)).isProcessing = false := by
  have hsettle : ∀ es : List Effect,
      sendVideoToBackend_try lang outcome = .ok es → es.countP Effect.clearsProcessing = 0 := by
    intro es hes
    obtain ⟨v, rfl⟩ := sendVideoToBackend_try_ok lang outcome es hes
    simp [Effect.clearsProcessing]
  refine ⟨?_, ?_, ?_⟩
  · unfold sendVideoToBackend sendVideoToBackend_issue sendVideoToBackend_settle
    cases htry : sendVideoToBackend_try lang outcome with
    | error e => simp [Effect.clearsProcessing, List.countP_cons]
    | ok es =>
        have h0 := hsettle es htry
        simp [Effect.clearsProcessing, List.countP_cons, List.countP_append, h0]
  · unfold sendVideoToBackend sendVideoToBackend_settle
    simp [List.getLast?_append]
  · unfold sendVideoToBackend sendVideoToBackend_settle
    rw [← List.append_assoc, run_append]
    simp [run, applyEffect]

/-- The `outputText` a whole call of `sendVideoToBackend` leaves when the
`try` body throws: the `catch` block's string. -/
theorem outputText_of_try_error (lang : String) (c : Component) (videoBlob : Blob)
    (outcome : FetchOutcome) (error : String)
    (h : sendVideoToBackend_try lang outcome = .error error) :
    (run c (sendVideoToBackend lang videoBlob outcome)).outputText =
      (if lang = "ar" then JsVal.str "خطأ في الاتصال بالسيرفر" else JsVal.str "Connection Error") := by
  simp [sendVideoToBackend, sendVideoToBackend_issue, sendVideoToBackend_settle, h, run,
    applyEffect]

/-- The `outputText` a whole call of `sendVideoToBackend` leaves when the
`try` body completes with the object `data`: `data.result || placeholder`. -/
theorem outputText_of_object (lang : String) (c : Component) (videoBlob : Blob)
    (status : Nat) (props : List (String × JsVal)) :
    (run c (sendVideoToBackend lang videoBlob
      (.resolves { ok := true, status := status, json := .resolves (.obj props) }))).outputText =
      ((props.lookup "result").getD .undefined).or
        (if lang = "ar" then JsVal.str "لم يتم التعرف" else JsVal.str "Unknown") := by
  simp [sendVideoToBackend, sendVideoToBackend_issue, sendVideoToBackend_settle,
    sendVideoToBackend_try, JsVal.result, run, applyEffect]

/-- C2, as the code has it: on a success response whose JSON object carries
the result string `r`, `outputText` becomes `r` when `r` is not empty, and the
locale placeholder when `r` is the empty string (which is falsy, so `||`
takes its right operand). -/
theorem sendVideoToBackend_success_result (lang : String) (c : Component) (videoBlob : Blob)
    (status : Nat) (props : List (String × JsVal)) (r : String)
    (hresult : props.lookup "result" = some (.str r)) :
    (run c (sendVideoToBackend lang videoBlob
      (.resolves { ok := true, status := status, json := .resolves (.obj props) }))).outputText =
      (if r = "" then
        (if lang = "ar" then JsVal.str "لم يتم التعرف" else JsVal.str "Unknown")
       else JsVal.str r) := by
  rw [outputText_of_object, hresult]
  by_cases hr : r = "" <;> simp [JsVal.or, JsVal.truthy, hr]

/-- C2, witness: the body `{"result": "HELLO"}` with status 200 gives
`outputText` `"HELLO"`. -/
theorem sendVideoToBackend_success_result_witness :
    (run initial (sendVideoToBackend "en" (newBlob [] "video/webm")
      (.resolves { ok := true, status := 200,
                   json := .resolves (.obj [("result", .str "HELLO")]) }))).outputText =
      JsVal.str "HELLO" := by
  have h := sendVideoToBackend_success_result "en" initial (newBlob [] "video/webm") 200
    [("result", .str "HELLO")] "HELLO" (by simp [List.lookup])
  simpa using h

/-- C2, counterexample: the success body `{"result": ""}` carries the result
string `""`, and `outputText` becomes the placeholder `"Unknown"`, not `""`. -/
theorem sendVideoToBackend_empty_result_counterexample :
    (run initial (sendVideoToBackend "en" (newBlob [] "video/webm")
      (.resolves { ok := true, status := 200,
                   json := .resolves (.obj [("result", .str "")]) }))).outputText =
      JsVal.str "Unknown" ∧
    (run initial (sendVideoToBackend "en" (newBlob [] "video/webm")
      (.resolves { ok := true, status := 200,
                   json := .resolves (.obj [("result", .str "")]) }))).outputText ≠
      JsVal.str "" := by
  have h : (run initial (sendVideoToBackend "en" (newBlob [] "video/webm")
      (.resolves { ok := true, status := 200,
                   json := .resolves (.obj [("result", .str "")]) }))).outputText =
      JsVal.str "Unknown" := by
    rw [outputText_of_object]
    simp [List.lookup, JsVal.or, JsVal.truthy]
  refine ⟨h, ?_⟩
  rw [h]
  simp

/-- C3: on a success response whose JSON object has no `result` property (the
empty object among them), `outputText` becomes the locale placeholder:
`"لم يتم التعرف"` when `lang` is `'ar'`, `"Unknown"` for every other `lang`. -/
theorem sendVideoToBackend_missing_result (lang : String) (c : Component) (videoBlob : Blob)
    (status : Nat) (props : List (String × JsVal))
    (hmissing : props.lookup "result" = none) :
    (run c (sendVideoToBackend lang videoBlob
      (.resolves { ok := true, status := status, json := .resolves (.obj props) }))).outputText =
      (if lang = "ar" then JsVal.str "لم يتم التعرف" else JsVal.str "Unknown") := by
  rw [outputText_of_object, hmissing]
  simp [JsVal.or, JsVal.truthy]

/-- C3, witness: status 200 with the body `{}`, in Arabic and in English. -/
theorem sendVideoToBackend_missing_result_witness :
    (run initial (sendVideoToBackend "ar" (newBlob [] "video/webm")
      (.resolves { ok := true, status := 200, json := .resolves (.obj []) }))).outputText =
      JsVal.str "لم يتم التعرف" ∧
    (run initial (sendVideoToBackend "en" (newBlob [] "video/webm")
      (.resolves { ok := true, status := 200, json := .resolves (.obj []) }))).outputText =
      JsVal.str "Unknown" := by
  constructor
  · simpa using sendVideoToBackend_missing_result "ar" initial (newBlob [] "video/webm") 200 []
      (by simp [List.lookup])
  · simpa using sendVideoToBackend_missing_result "en" initial (newBlob [] "video/webm") 200 []
      (by simp [List.lookup])

/-- C4: a call of `sendVideoToBackend` that fails, by a rejected `fetch` (any
error), by a response that is not `ok` (any status, any body) or by a rejected
`response.json()` (any error), leaves in `outputText` the locale
connection-error string, `"خطأ في الاتصال بالسيرفر"` when `lang` is `'ar'` and
`"Connection Error"` otherwise: a value fixed by `lang` alone. -/
theorem sendVideoToBackend_failure_outputText (lang : String) (c : Component)
    (videoBlob : Blob) :
    (∀ error : String,
      (run c (sendVideoToBackend lang videoBlob (.rejects error))).outputText =
        (if lang = "ar" then JsVal.str "خطأ في الاتصال بالسيرفر"
         else JsVal.str "Connection Error")) ∧
    (∀ (status : Nat) (json : JsonOutcome),
      (run c (sendVideoToBackend lang videoBlob
        (.resolves { ok := false, status := status, json := json }))).outputText =
        (if lang = "ar" then JsVal.str "خطأ في الاتصال بالسيرفر"
         else JsVal.str "Connection Error")) ∧
    (∀ (status : Nat) (error : String),
      (run c (sendVideoToBackend lang videoBlob
        (.resolves { ok := true, status := status, json := .rejects error }))).outputText =
        (if lang = "ar" then JsVal.str "خطأ في الاتصال بالسيرفر"
         else JsVal.str "Connection Error")) := by
  refine ⟨?_, ?_, ?_⟩
  · intro error
    exact outputText_of_try_error lang c videoBlob _ error rfl
  · intro status json
    exact outputText_of_try_error lang c videoBlob _ _ (by simp [sendVideoToBackend_try]; rfl)
  · intro status error
    exact outputText_of_try_error lang c videoBlob _ error (by simp [sendVideoToBackend_try])

/-! ## The toggle control and the mode switcher -/

/-- C5: the action of `handleCameraToggle` is fixed by `isCameraActive` and
`isRecording`: with the camera inactive (recording or not) it activates the
camera, with the camera active and not recording it is `startRecording`, with
both set it is `stopRecording`; and replacing `mode`, `inputText`,
`outputText` and `isProcessing` by any other values changes nothing of what
it does. -/
theorem handleCameraToggle_action (c : Component) (m : Mode) (input : String)
    (output : JsVal) (processing : Bool) :
    handleCameraToggle { c with isCameraActive := false } =
      [.setIsCameraActive true, .setOutputText (.str "")] ∧
    handleCameraToggle { c with isCameraActive := true, isRecording := false } =
      startRecording { c with isCameraActive := true, isRecording := false } ∧
    handleCameraToggle { c with isCameraActive := true, isRecording := true } =
      stopRecording { c with isCameraActive := true, isRecording := true } ∧
    handleCameraToggle { c with mode := m, inputText := input, outputText := output,
                                isProcessing := processing } =
      handleCameraToggle c := by
  refine ⟨?_, ?_, ?_, ?_⟩
  · simp [handleCameraToggle]
  · simp [handleCameraToggle]
  · simp [handleCameraToggle]
  · simp [handleCameraToggle, startRecording, stopRecording]

/-- C6: from every component, the click on the text-to-sign tab ends with
`mode` text-to-sign, `isCameraActive` false and `isRecording` false, and the
click on the sign-to-text tab ends with `mode` sign-to-text and `inputText`
empty. -/
theorem mode_switch_resets (lang : String) (c : Component) :
    (∃ c1, step lang c .clickTextToSign = some c1 ∧
      c1.mode = .textToSign ∧ c1.isCameraActive = false ∧ c1.isRecording = false) ∧
    (∃ c2, step lang c .clickSignToText = some c2 ∧
      c2.mode = .signToText ∧ c2.inputText = "") := by
  constructor
  · exact ⟨_, rfl, rfl, rfl, rfl⟩
  · exact ⟨_, rfl, rfl, rfl⟩

/-! ## `handleTextSubmit` -/

theorem jsTrim_of_whiteSpace (s : String)
    (h : ∀ ch ∈ s.data, isJsWhiteSpace ch = true) : jsTrim s = "" := by
  have h1 : s.data.dropWhile isJsWhiteSpace = [] := by
    rw [List.dropWhile_eq_nil_iff]
    exact h
  simp [jsTrim, h1]

/-- C8: when `inputText` is empty or holds only white space, `handleTextSubmit`
performs no effect at all (no `setIsProcessing(true)`, no `setTimeout`, the
component is unchanged) and the translate button does not even dispatch; when
`inputText` is not empty after trimming, it sets `isProcessing` and schedules
one timeout of 1500 ms, whose callback clears `isProcessing` in whatever
component it runs. -/
theorem handleTextSubmit_spec (lang : String) (c : Component) :
    ((∀ ch ∈ c.inputText.data, isJsWhiteSpace ch = true) →
      handleTextSubmit c = [] ∧ run c (handleTextSubmit c) = c ∧
      step lang c .clickTextSubmit = none) ∧
    (jsTrim c.inputText ≠ "" →
      handleTextSubmit c = [.setIsProcessing true, .setTimeout c.inputText 1500] ∧
      (run c (handleTextSubmit c)).isProcessing = true ∧
      (run c (handleTextSubmit c)).timers = c.timers ++ [c.inputText] ∧
      ∀ later : Component,
        (run later (textTimeoutCallback c.inputText)).isProcessing = false) := by
  constructor
  · intro h
    have ht := jsTrim_of_whiteSpace c.inputText h
    refine ⟨?_, ?_, ?_⟩
    · simp [handleTextSubmit, ht]
    · simp [handleTextSubmit, ht, run]
    · simp [step, ht]
  · intro h
    refine ⟨?_, ?_, ?_, ?_⟩
    · simp [handleTextSubmit, h]
    · simp [handleTextSubmit, h, run, applyEffect]
    · simp [handleTextSubmit, h, run, applyEffect]
    · intro later
      simp [textTimeoutCallback, run, applyEffect]

/-- C8, witness: `inputText` `""` and `"   "` are no-ops; `"hi"` sets
`isProcessing` and schedules the timeout. -/
theorem handleTextSubmit_spec_witness :
    (handleTextSubmit { initial with inputText := "" } = [] ∧
      run { initial with inputText := "" } (handleTextSubmit { initial with inputText := "" })
        = { initial with inputText := "" } ∧
      step "en" { initial with inputText := "" } .clickTextSubmit = none) ∧
    (handleTextSubmit { initial with inputText := "   " } = [] ∧
      run { initial with inputText := "   " }
          (handleTextSubmit { initial with inputText := "   " })
        = { initial with inputText := "   " } ∧
      step "en" { initial with inputText := "   " } .clickTextSubmit = none) ∧
    (run { initial with inputText := "hi" }
        (handleTextSubmit { initial with inputText := "hi" })).isProcessing = true :=
  ⟨(handleTextSubmit_spec "en" { initial with inputText := "" }).1 (by decide),
   (handleTextSubmit_spec "en" { initial with inputText := "   " }).1 (by decide),
   ((handleTextSubmit_spec "en" { initial with inputText := "hi" }).2 (by decide)).2.1⟩

/-! ## Recording sessions -/

theorem steps_append (lang : String) (c : Component) (es fs : List Event) :
    steps lang c (es ++ fs) = (steps lang c es).bind (fun c1 => steps lang c1 fs) := by
  induction es generalizing c with
  | nil => simp [steps]
  | cons e es ih =>
      simp only [List.cons_append, steps]
      cases step lang c e with
      | none => simp
      | some c1 => simp [ih]

/-- The bytes of the segments that `ondataavailable` keeps are the bytes of
all the segments: a segment of size zero has no byte. -/
theorem flatten_bytes_filter (blobs : List Blob) :
    ((blobs.filter (fun b => decide (0 < b.size))).map Blob.bytes).flatten =
      (blobs.map Blob.bytes).flatten := by
  induction blobs with
  | nil => rfl
  | cons b bs ih =>
      by_cases hb : 0 < b.size
      · simp [List.filter_cons, hb, ih]
      · have hnil : b.bytes = [] := by
          have : b.bytes.length = 0 := by
            simpa [Blob.size] using hb
          exact List.length_eq_zero.mp this
        simp [List.filter_cons, hb, ih, hnil]

/-- The `chunksRef.current` after one `ondataavailable`. -/
theorem chunks_ondataavailable (c : Component) (data : Option Blob) :
    (run c (ondataavailable data)).chunks =
      c.chunks ++ ([data].filterMap id).filter (fun b => decide (0 < b.size)) := by
  cases data with
  | none => simp [ondataavailable, run]
  | some b =>
      by_cases hb : 0 < b.size
      · simp [ondataavailable, run, applyEffect, hb, List.filter_cons]
      · simp [ondataavailable, run, hb, List.filter_cons]

/-- The fields `ondataavailable` leaves alone. -/
theorem frame_ondataavailable (c : Component) (data : Option Blob) :
    (run c (ondataavailable data)).recorders = c.recorders ∧
    (run c (ondataavailable data)).requests = c.requests ∧
    (run c (ondataavailable data)).mediaRecorder = c.mediaRecorder ∧
    (run c (ondataavailable data)).isProcessing = c.isProcessing ∧
    (run c (ondataavailable data)).isRecording = c.isRecording ∧
    (run c (ondataavailable data)).isCameraActive = c.isCameraActive ∧
    (run c (ondataavailable data)).mode = c.mode := by
  cases data with
  | none => simp [ondataavailable, run]
  | some b =>
      by_cases hb : 0 < b.size
      · simp [ondataavailable, run, applyEffect, hb]
      · simp [ondataavailable, run, hb]

/-- A live recorder can dispatch any sequence of `dataavailable` events; they
append the segments of nonzero size to `chunksRef.current`, in order, and
change nothing else the handlers read. -/
theorem steps_dataavailable (lang : String) (i : Nat) (segments : List (Option Blob))
    (c : Component)
    (hlive : c.recorders[i]? = some .recording ∨ c.recorders[i]? = some .stopPending) :
    ∃ c1, steps lang c (segments.map (.dataavailable i)) = some c1 ∧
      c1.chunks = c.chunks ++ (segments.filterMap id).filter (fun b => decide (0 < b.size)) ∧
      c1.recorders = c.recorders ∧ c1.requests = c.requests ∧
      c1.mediaRecorder = c.mediaRecorder ∧ c1.isProcessing = c.isProcessing ∧
      c1.isRecording = c.isRecording ∧ c1.isCameraActive = c.isCameraActive ∧
      c1.mode = c.mode := by
  induction segments generalizing c with
  | nil => exact ⟨c, rfl, by simp, rfl, rfl, rfl, rfl, rfl, rfl, rfl⟩
  | cons data rest ih =>
      have hstep : step lang c (.dataavailable i data) =
          some (rerender (run c (ondataavailable data))) := by
        simp [step, hlive]
      obtain ⟨hrecs, hreqs, href, hproc, hrec, hcam, hmode⟩ := frame_ondataavailable c data
      have hchunks := chunks_ondataavailable c data
      have hlive1 : (rerender (run c (ondataavailable data))).recorders[i]? = some .recording ∨
          (rerender (run c (ondataavailable data))).recorders[i]? = some .stopPending := by
        simpa [rerender, hrecs] using hlive
      obtain ⟨c1, hsteps, h1, h2, h3, h4, h5, h6, h7, h8⟩ := ih _ hlive1
      refine ⟨c1, ?_, ?_, ?_, ?_, ?_, ?_, ?_, ?_, ?_⟩
      · simp [steps, hstep, hsteps]
      · rw [h1]
        simp only [rerender, hchunks]
        cases data with
        | none => simp
        | some b => by_cases hb : 0 < b.size <;> simp [List.filter_cons, hb]
      · simpa [rerender, hrecs] using h2
      · simpa [rerender, hreqs] using h3
      · simpa [rerender, href] using h4
      · simpa [rerender, hproc] using h5
      · simpa [rerender, hrec] using h6
      · simpa [rerender, hcam] using h7
      · simpa [rerender, hmode] using h8

/-- What `startRecording` leaves when the webcam has a stream: an empty
`chunksRef.current` and a fresh recorder, recording, in `mediaRecorderRef`. -/
theorem run_startRecording (c : Component) (hstream : c.webcamStream = true) :
    run c (startRecording c) =
      { c with isRecording := true, chunks := [],
               recorders := c.recorders ++ [.recording],
               mediaRecorder := some c.recorders.length } := by
  simp [startRecording, hstream, run, applyEffect]

/-- What `stopRecording` leaves when `mediaRecorderRef` holds a recording
recorder. -/
theorem run_stopRecording (c : Component) (i : Nat) (href : c.mediaRecorder = some i)
    (hstate : c.recorders[i]? = some .recording) :
    run c (stopRecording c) =
      { c with isRecording := false, recorders := c.recorders.set i .stopPending } := by
  simp [stopRecording, href, run, applyEffect, hstate]

/-- The flags `isRecording` and `isCameraActive` after the settling part of
`sendVideoToBackend`: it writes neither. -/
theorem frame_sendVideoToBackend_settle (lang : String) (c : Component) (outcome : FetchOutcome) :
    (run c (sendVideoToBackend_settle lang outcome)).isRecording = c.isRecording ∧
    (run c (sendVideoToBackend_settle lang outcome)).isCameraActive = c.isCameraActive := by
  unfold sendVideoToBackend_settle
  cases htry : sendVideoToBackend_try lang outcome with
  | error e => simp [run, applyEffect]
  | ok es =>
      obtain ⟨v, rfl⟩ := sendVideoToBackend_try_ok lang outcome es htry
      simp [run, applyEffect]

/-- One event keeps the rule that a component that records has its camera
active. -/
theorem step_recording_camera (lang : String) (c c1 : Component) (e : Event)
    (hinv : c.isRecording = true → c.isCameraActive = true)
    (hstep : step lang c e = some c1) :
    c1.isRecording = true → c1.isCameraActive = true := by
  cases e with
  | clickTextToSign =>
      simp [step, run, onClickTextToSign, applyEffect, rerender] at hstep
      subst hstep
      simp
  | clickSignToText =>
      simp [step, run, onClickSignToText, applyEffect, rerender] at hstep
      subst hstep
      simpa using hinv
  | changeInput value =>
      simp [step, run, applyEffect, rerender] at hstep
      obtain ⟨-, rfl⟩ := hstep
      simpa using hinv
  | clickTextSubmit =>
      simp only [step] at hstep
      split at hstep
      · simp [handleTextSubmit] at hstep
        split at hstep
        · simp [run, rerender] at hstep
          subst hstep
          simpa using hinv
        · simp [run, applyEffect, rerender] at hstep
          subst hstep
          simpa using hinv
      · cases hstep
  | clickCameraToggle =>
      simp only [step] at hstep
      split at hstep
      · simp only [Option.some.injEq] at hstep
        subst hstep
        by_cases hcam : c.isCameraActive = true
        · by_cases hrec : c.isRecording = true
          · cases hm : c.mediaRecorder with
            | none =>
                simp [handleCameraToggle, stopRecording, hcam, hrec, hm, run, applyEffect,
                  rerender]
            | some j =>
                by_cases hj : c.recorders[j]? = some .recording <;>
                  simp [handleCameraToggle, stopRecording, hcam, hrec, hm, hj, run,
                    applyEffect, rerender]
          · by_cases hs : c.webcamStream = true <;>
              simp [handleCameraToggle, startRecording, hcam, hrec, hs, run, applyEffect,
                rerender]
        · simp [handleCameraToggle, hcam, run, applyEffect, rerender]
      · cases hstep
  | streamReady =>
      simp only [step] at hstep
      split at hstep
      · simp only [Option.some.injEq] at hstep
        subst hstep
        simpa using hinv
      · cases hstep
  | dataavailable i data =>
      simp only [step] at hstep
      split at hstep
      · simp only [Option.some.injEq] at hstep
        subst hstep
        obtain ⟨-, -, -, -, hrec, hcam, -⟩ := frame_ondataavailable c data
        simpa [rerender, hrec, hcam] using hinv
      · cases hstep
  | stop i =>
      simp only [step] at hstep
      split at hstep
      · simp only [Option.some.injEq] at hstep
        subst hstep
        simpa [onstop, sendVideoToBackend_issue, run, applyEffect, rerender] using hinv
      · cases hstep
  | fetchSettled i outcome =>
      simp only [step] at hstep
      split at hstep
      · simp only [Option.some.injEq] at hstep
        subst hstep
        obtain ⟨hrec, hcam⟩ := frame_sendVideoToBackend_settle lang
          { c with requests := c.requests.eraseIdx i } outcome
        simpa [rerender, hrec, hcam] using hinv
      · cases hstep
  | timeout =>
      simp only [step] at hstep
      split at hstep
      · simp only [Option.some.injEq] at hstep
        subst hstep
        simpa [textTimeoutCallback, run, applyEffect, rerender] using hinv
      · cases hstep

/-- In every reachable component, `isRecording` implies `isCameraActive`. -/
theorem reachable_recording_camera (lang : String) (c : Component) (h : Reachable lang c) :
    c.isRecording = true → c.isCameraActive = true := by
  obtain ⟨es, hes⟩ := h
  have key : ∀ (es : List Event) (c0 : Component),
      (c0.isRecording = true → c0.isCameraActive = true) →
      steps lang c0 es = some c → (c.isRecording = true → c.isCameraActive = true) := by
    intro es
    induction es with
    | nil =>
        intro c0 hinv hsteps
        simp [steps] at hsteps
        subst hsteps
        exact hinv
    | cons e es ih =>
        intro c0 hinv hsteps
        simp only [steps] at hsteps
        cases hstep : step lang c0 e with
        | none => simp [hstep] at hsteps
        | some c1 =>
            rw [hstep] at hsteps
            exact ih c1 (step_recording_camera lang c0 c1 e hinv hstep) hsteps
  exact key es initial (by simp [initial]) hes

/-- C10, as the code has it: in a component with `isRecording` set, and with it
`isCameraActive` as in every reachable component, whose `mediaRecorderRef`
holds a recording recorder (the one `startRecording` made when it found the
stream), `stopRecording` clears
`isRecording` and leaves `isCameraActive` set; the recorder can then deliver
its last segments and dispatch `stop`, and `onstop` hands one blob to
`sendVideoToBackend`: the segments of `chunksRef.current` in order, typed
`video/webm`, posted as one request. The toggle control calls `stopRecording`
in such a component. The recorder is inactive afterwards, so
no second `stop` follows. -/
theorem stopRecording_hands_blob (lang : String) (c : Component) (i : Nat)
    (segments : List (Option Blob))
    (hrec : c.isRecording = true) (hcam : c.isCameraActive = true)
    (href : c.mediaRecorder = some i) (hstate : c.recorders[i]? = some .recording) :
    handleCameraToggle c = stopRecording c ∧
    (run c (stopRecording c)).isRecording = false ∧
    (run c (stopRecording c)).isCameraActive = true ∧
    ∃ c1 c2,
      steps lang (run c (stopRecording c)) (segments.map (.dataavailable i)) = some c1 ∧
      c1.chunks = c.chunks ++ (segments.filterMap id).filter (fun b => decide (0 < b.size)) ∧
      step lang c1 (.stop i) = some c2 ∧
      c2.requests = c.requests ++ [newBlob c1.chunks "video/webm"] ∧
      (newBlob c1.chunks "video/webm").type = "video/webm" ∧
      (newBlob c1.chunks "video/webm").bytes = (c1.chunks.map Blob.bytes).flatten ∧
      c2.isProcessing = true ∧ c2.isRecording = false ∧ c2.isCameraActive = true ∧
      step lang c2 (.stop i) = none := by
  have hlt : i < c.recorders.length := by
    rcases Nat.lt_or_ge i c.recorders.length with h | h
    · exact h
    · rw [List.getElem?_eq_none h] at hstate
      cases hstate
  have hstop := run_stopRecording c i href hstate
  have hpending : (run c (stopRecording c)).recorders[i]? = some .stopPending := by
    rw [hstop]
    simp [hlt]
  obtain ⟨c1, hsteps, hchunks, hrecs, hreqs, -, -, hrec1, hcam1, -⟩ :=
    steps_dataavailable lang i segments (run c (stopRecording c)) (Or.inr hpending)
  have hpending1 : c1.recorders[i]? = some .stopPending := by
    rw [hrecs]
    exact hpending
  have hlt1 : i < c1.recorders.length := by
    rw [hrecs, hstop]
    simpa using hlt
  have hreqs1 : c1.requests = c.requests := by rw [hreqs, hstop]
  have hrec2 : c1.isRecording = false := by rw [hrec1, hstop]
  have hcam2 : c1.isCameraActive = true := by rw [hcam1, hstop]; exact hcam
  refine ⟨by simp [handleCameraToggle, hrec, hcam], by rw [hstop], by rw [hstop]; exact hcam, c1,
    rerender (run { c1 with recorders := c1.recorders.set i .inactive }
      (onstop { c1 with recorders := c1.recorders.set i .inactive })),
    hsteps, ?_, ?_, ?_, rfl, rfl, ?_, ?_, ?_, ?_⟩
  · rw [hchunks, hstop]
  · simp only [step, hpending1, if_true]
  · simp [onstop, sendVideoToBackend_issue, run, applyEffect, rerender, hreqs1]
  · simp [onstop, sendVideoToBackend_issue, run, applyEffect, rerender]
  · simp [onstop, sendVideoToBackend_issue, run, applyEffect, rerender, hrec2]
  · simp [onstop, sendVideoToBackend_issue, run, applyEffect, rerender, hcam2]
  · simp [step, onstop, sendVideoToBackend_issue, run, applyEffect, rerender, hlt1]

/-- C10, witness: the recording reached by activating the camera, starting to
record and receiving three bytes; stopping it hands over the blob of these
three bytes followed by the two of the last segment. -/
theorem stopRecording_hands_blob_witness :
    steps "en" initial [.clickSignToText, .clickCameraToggle, .streamReady,
      .clickCameraToggle,
      .dataavailable 0 (some { bytes := [26, 69, 223], type := "video/webm" })]
      = some recordingSession ∧
    handleCameraToggle recordingSession = stopRecording recordingSession ∧
    (run recordingSession (stopRecording recordingSession)).isRecording = false ∧
    (run recordingSession (stopRecording recordingSession)).isCameraActive = true ∧
    ∃ c1 c2,
      steps "en" (run recordingSession (stopRecording recordingSession))
        ([some { bytes := [163, 1], type := "video/webm" }, none].map (.dataavailable 0))
        = some c1 ∧
      c1.chunks = recordingSession.chunks ++
        ([some { bytes := [163, 1], type := "video/webm" }, none].filterMap id).filter
          (fun b => decide (0 < b.size)) ∧
      step "en" c1 (.stop 0) = some c2 ∧
      c2.requests = recordingSession.requests ++ [newBlob c1.chunks "video/webm"] ∧
      (newBlob c1.chunks "video/webm").type = "video/webm" ∧
      (newBlob c1.chunks "video/webm").bytes = (c1.chunks.map Blob.bytes).flatten ∧
      c2.isProcessing = true ∧ c2.isRecording = false ∧ c2.isCameraActive = true ∧
      step "en" c2 (.stop 0) = none :=
  ⟨rfl, stopRecording_hands_blob "en" recordingSession 0
    [some { bytes := [163, 1], type := "video/webm" }, none] rfl rfl rfl rfl⟩

/-- C10, counterexample: start recording before the webcam has its stream.
`isRecording` is set, `stopRecording` only clears it: there is no recorder to
stop, no `stop` event can follow, and no blob reaches `sendVideoToBackend`. -/
theorem stopRecording_without_stream_counterexample :
    steps "en" initial [.clickSignToText, .clickCameraToggle, .clickCameraToggle]
      = some recordingWithoutStream ∧
    recordingWithoutStream.isRecording = true ∧
    stopRecording recordingWithoutStream = [.setIsRecording false] ∧
    (run recordingWithoutStream (stopRecording recordingWithoutStream)).requests = [] ∧
    (run recordingWithoutStream (stopRecording recordingWithoutStream)).recorders = [] ∧
    ∀ i, step "en" (run recordingWithoutStream (stopRecording recordingWithoutStream))
      (.stop i) = none := by
  refine ⟨rfl, rfl, rfl, rfl, rfl, ?_⟩
  intro i
  simp [step, run, stopRecording, recordingWithoutStream, initial, applyEffect]

/-- A session on its own: start a recording with the toggle control in a
component whose camera is on and has its stream, whatever `chunksRef.current`
held before; let only this recorder deliver segments, stop with the toggle
control, and let it deliver further segments before its `stop` event. Then
`chunksRef.current` holds exactly the delivered segments of nonzero size, in
arrival order, and the blob built from it has the bytes of all the delivered
segments in order. -/
theorem chunkBuffer_of_session (lang : String) (c : Component)
    (before after : List (Option Blob))
    (hmode : c.mode = .signToText) (hproc : c.isProcessing = false)
    (hcam : c.isCameraActive = true) (hrec : c.isRecording = false)
    (hstream : c.webcamStream = true) :
    (run c (startRecording c)).chunks = [] ∧
    ∃ c1, steps lang c
        (.clickCameraToggle :: before.map (.dataavailable c.recorders.length) ++
          .clickCameraToggle :: after.map (.dataavailable c.recorders.length)) = some c1 ∧
      c1.recorders[c.recorders.length]? = some .stopPending ∧
      c1.chunks = ((before ++ after).filterMap id).filter (fun b => decide (0 < b.size)) ∧
      (newBlob c1.chunks "video/webm").bytes =
        (((before ++ after).filterMap id).map Blob.bytes).flatten := by
  have hstart := run_startRecording c hstream
  -- the first click starts the recording
  have hclick1 : step lang c .clickCameraToggle = some (rerender (run c (startRecording c))) := by
    simp [step, hmode, hproc, handleCameraToggle, hcam, hrec]
  have hlive1 : (rerender (run c (startRecording c))).recorders[c.recorders.length]? =
      some .recording := by
    rw [hstart]
    simp [rerender]
  obtain ⟨cB, hstepsB, hchunksB, hrecsB, -, hrefB, hprocB, hrecB, hcamB, hmodeB⟩ :=
    steps_dataavailable lang c.recorders.length before _ (Or.inl hlive1)
  have hchunksB1 : cB.chunks = (before.filterMap id).filter (fun b => decide (0 < b.size)) := by
    rw [hchunksB, hstart]
    simp [rerender]
  have hrecsB1 : cB.recorders = c.recorders ++ [.recording] := by
    rw [hrecsB, hstart]
    simp [rerender]
  have hrefB1 : cB.mediaRecorder = some c.recorders.length := by
    rw [hrefB, hstart]
    simp [rerender]
  have hprocB1 : cB.isProcessing = false := by
    rw [hprocB, hstart]
    simpa [rerender] using hproc
  have hrecB1 : cB.isRecording = true := by
    rw [hrecB, hstart]
    simp [rerender]
  have hcamB1 : cB.isCameraActive = true := by
    rw [hcamB, hstart]
    simpa [rerender] using hcam
  have hmodeB1 : cB.mode = .signToText := by
    rw [hmodeB, hstart]
    simpa [rerender] using hmode
  have hstateB : cB.recorders[c.recorders.length]? = some .recording := by
    rw [hrecsB1]
    simp
  -- the second click stops it
  have hstop := run_stopRecording cB c.recorders.length hrefB1 hstateB
  have hclick2 : step lang cB .clickCameraToggle = some (rerender (run cB (stopRecording cB))) := by
    simp [step, hmodeB1, hprocB1, handleCameraToggle, hcamB1, hrecB1]
  have hlive2 : (rerender (run cB (stopRecording cB))).recorders[c.recorders.length]? =
      some .stopPending := by
    rw [hstop, hrecsB1]
    simp [rerender]
  obtain ⟨cD, hstepsD, hchunksD, hrecsD, -, -, -, -, -, -⟩ :=
    steps_dataavailable lang c.recorders.length after _ (Or.inr hlive2)
  have hchunksD1 : cD.chunks =
      ((before ++ after).filterMap id).filter (fun b => decide (0 < b.size)) := by
    rw [hchunksD, hstop]
    simp [rerender, hchunksB1, List.filterMap_append]
  refine ⟨by rw [hstart], cD, ?_, ?_, hchunksD1, ?_⟩
  · rw [steps_append]
    have h1 : steps lang c
        (.clickCameraToggle :: before.map (.dataavailable c.recorders.length)) = some cB := by
      simp [steps, hclick1, hstepsB]
    rw [h1]
    simp [steps, hclick2, hstepsD]
  · rw [hrecsD]
    exact hlive2
  · rw [hchunksD1]
    simp only [newBlob]
    exact flatten_bytes_filter _

/-- C7, the code at the failing input: the second recording is started
between the `stop()` of the first recorder and that recorder's events. The
first recorder's segment then lands in the buffer the second session has just
emptied; when the second recorder dispatches `stop`, having delivered the
byte `3` alone, `chunksRef.current` holds the bytes `1 2` of the first
session before it, and the blob posted for the second session is `1 2 3`. -/
theorem overlappingSessions_buffer_mixed :
    (steps "en" initial (overlappingSessions.take 6)).map
        (fun c => (c.chunks, c.recorders)) = some ([], [.stopPending, .recording]) ∧
    (steps "en" initial (overlappingSessions.take 7)).map (fun c => c.chunks) =
      some [{ bytes := [1, 2], type := "video/webm" }] ∧
    (steps "en" initial (overlappingSessions.take 11)).map
        (fun c => (c.chunks, c.recorders, c.requests)) =
      some ([{ bytes := [1, 2], type := "video/webm" }, { bytes := [3], type := "video/webm" }],
            [.inactive, .stopPending], []) ∧
    (steps "en" initial overlappingSessions).map (fun c => c.requests) =
      some [{ bytes := [1, 2, 3], type := "video/webm" }] := by
  refine ⟨by decide, by decide, by decide, by decide⟩

/-! ## Submissions in flight -/

/-- The clicks cannot start a submission while `isProcessing` is set: the
translate button and the camera control are disabled. -/
theorem click_disabled_while_processing (lang : String) (c : Component)
    (hproc : c.isProcessing = true) :
    step lang c .clickTextSubmit = none ∧ step lang c .clickCameraToggle = none := by
  simp [step, hproc]

/-- C9, the code at the failing input: after the first `stop` event one
request is in flight and `isProcessing` is set; the second `stop` event is
dispatched in that state, `onstop` calls `sendVideoToBackend` again, and two
requests are in flight. -/
theorem overlappingStops_two_in_flight :
    (steps "en" initial (overlappingStops.take 8)).map
        (fun c => (c.isProcessing, inFlight c)) = some (true, 1) ∧
    (steps "en" initial overlappingStops).map
        (fun c => (c.isProcessing, inFlight c)) = some (true, 2) ∧
    ∃ c, Reachable "en" c ∧ inFlight c = 2 := by
  refine ⟨by decide, by decide, ?_⟩
  cases h : steps "en" initial overlappingStops with
  | none =>
      have hd : (steps "en" initial overlappingStops).isSome = true := by decide
      rw [h] at hd
      cases hd
  | some c =>
      refine ⟨c, ⟨overlappingStops, h⟩, ?_⟩
      have hd : (steps "en" initial overlappingStops).map inFlight = some 2 := by decide
      rw [h] at hd
      simpa using hd

end Demo
